import Mathlib

/-!
Shallow embedding of the authentication core of the Social-Network backend
(src/src/utils/user-profile.util.ts: AuthenService and AuthenController),
with the Credential Store collaborator (UserAccountUtil, declared but not
present under src/) modelled from the spec, and verification of the spec
claims against it.
-/

namespace Authen

/-- Model of a TypeScript string-or-undefined DTO field: `none` is
`undefined`; truthiness of a string is falsity of emptiness. -/
def truthy : Option String → Bool
  | none => false
  | some s => !(s == "")

/-- The AuthenDTO shape: optional username, email, password fields
(one permissive structure, as in the source dtos/authen.dto). -/
structure AuthenDTO where
  username : Option String
  email : Option String
  password : Option String
deriving DecidableEq, Repr

/-- The UserAccount entity: fields read off the destructuring in
validateUser (password, profile, verifyEmail, created_at, updated_at and
the rest) together with the attribute list of the data model. -/
structure UserAccount where
  username : String
  email : Option String
  password : String
  verifyEmail : Bool
  created_at : Nat
  updated_at : Nat
  profile : Option String
deriving DecidableEq, Repr

/-- The rest left by
`const { password, profile, verifyEmail, created_at, updated_at, ...user }`:
the public identity attributes that get signed into a session token. -/
structure PublicUser where
  username : String
  email : Option String
deriving DecidableEq, Repr

/-- The destructuring of validateUser lines 74-81: drop password, profile,
verifyEmail, created_at, updated_at and keep the rest. -/
def publicOf (a : UserAccount) : PublicUser :=
  { username := a.username, email := a.email }

/-- Model of bcrypt.hash(plaintext, 12): a salted one-way digest, modelled
as an injective tagged encoding distinct from every plaintext. -/
def bcryptHash (plaintext : String) : String :=
  "$2b$12$" ++ plaintext

/-- Model of bcrypt.compare(plaintext, hash). -/
def bcryptCompare (plaintext hash : String) : Bool :=
  hash == bcryptHash plaintext

/-- bcrypt.compare applied to a possibly-undefined DTO password field. -/
def bcryptCompareOpt (plaintext : Option String) (hash : String) : Bool :=
  match plaintext with
  | none => false
  | some p => bcryptCompare p hash

/-- Claim payloads signed into JWTs by this service: either the public
user rest (session tokens) or `\x7b email \x7d` (reset and verification
tokens). -/
inductive JwtPayload
  | userPayload (user : PublicUser)
  | emailPayload (email : String)
deriving DecidableEq, Repr

/-- The `decoded.email` field access on a verified payload. -/
def payloadEmail : JwtPayload → Option String
  | .userPayload u => u.email
  | .emailPayload e => some e

/-- A bearer token artifact: either produced by jwtService.sign (payload,
issue time, optional expiresIn window) or an artifact that does not carry
a valid signature (tampered or forged). -/
inductive Token
  | signed (payload : JwtPayload) (issuedAt : Nat) (expiresIn : Option Nat)
  | garbage (raw : String)
deriving DecidableEq, Repr

/-- jwtService.sign(payload, options?): signing never fails. -/
def jwtSign (payload : JwtPayload) (expiresIn : Option Nat) (now : Nat) : Token :=
  .signed payload now expiresIn

/-- Verification failure kinds of jwtService.verify: bad signature or
expired; both are thrown, and the service catches them uniformly. -/
inductive JwtError
  | invalidSignature
  | expired
deriving DecidableEq, Repr

/-- jwtService.verify(token): rejects unsigned artifacts and tokens whose
expiry window has elapsed at verification time; otherwise returns the
claims unchanged. -/
def jwtVerify (now : Nat) (t : Token) : Except JwtError JwtPayload :=
  match t with
  | .garbage _ => .error .invalidSignature
  | .signed p issuedAt expiresIn =>
    match expiresIn with
    | none => .ok p
    | some d => if issuedAt + d < now then .error .expired else .ok p

/-- Modelled from the spec: Credential Store contract
`findByUsername(s) -> Account?` (UserAccountUtil is not under src). -/
def findByUsername (store : List UserAccount) (username : String) : Option UserAccount :=
  store.find? (fun a => a.username == username)

/-- Modelled from the spec: Credential Store contract
`findByEmail(s) -> Account?`; an undefined email key matches nothing. -/
def findByEmail (store : List UserAccount) (email : Option String) : Option UserAccount :=
  match email with
  | none => none
  | some e => store.find? (fun a => a.email == some e)

/-- Modelled from the spec: `create(username, hash) -> Account` creates a
new unverified Account with that username and hash. -/
def create (username hash : String) : UserAccount :=
  { username := username, email := none, password := hash,
    verifyEmail := false, created_at := 0, updated_at := 0, profile := none }

/-- Modelled from the spec: `save(Account) -> void` persists the account
in the Credential Store. -/
def save (store : List UserAccount) (user : UserAccount) : List UserAccount :=
  store ++ [user]

/-- Modelled from the spec: `updatePassword(Account, p) -> void` — the
Password Hasher computes a new hash and the Credential Store persists the
updated hash. -/
def updatePassword (store : List UserAccount) (user : UserAccount) (newPassword : String) :
    List UserAccount :=
  store.map (fun a => if a = user then { a with password := bcryptHash newPassword } else a)

/-- Modelled from the spec: `markVerified(Account) -> void`
(updateVerifyEmail) — the Credential Store sets verified = true. -/
def updateVerifyEmail (store : List UserAccount) (user : UserAccount) : List UserAccount :=
  store.map (fun a => if a = user then { a with verifyEmail := true } else a)

/-- AuthenService.createUser: 400 when username or password is falsy, 409
when the username is taken, otherwise hash, create and save; success is
`none`. Returns the status and the store after the call. -/
def createUser (store : List UserAccount) (dto : AuthenDTO) :
    Option Nat × List UserAccount :=
  if !truthy dto.username || !truthy dto.password then (some 400, store)
  else
    match findByUsername store (dto.username.getD "") with
    | some _ => (some 409, store)
    | none =>
      let ecryptPassword := bcryptHash (dto.password.getD "")
      let user := create (dto.username.getD "") ecryptPassword
      (none, save store user)

/-- A Credential Store lookup event, recorded to witness which keys the
service consulted. -/
inductive Lookup
  | byUsername (s : String)
  | byEmail (s : String)
deriving DecidableEq, Repr

/-- Line 66 of validateUser: `if (userByEmail?.verifyEmail)` — accept the
email lookup result only when the account is verified. -/
def acceptVerified (userByEmail : Option UserAccount) : Option UserAccount :=
  if userByEmail.elim false (fun u => u.verifyEmail) then userByEmail else none

/-- Lines 59-69 of validateUser: resolve findUser by username when given;
when that leaves findUser undefined and an email is given, resolve by
email accepting only a verified account; also records the lookups
performed. -/
def lookupUser (store : List UserAccount) (dto : AuthenDTO) :
    Option UserAccount × List Lookup :=
  if truthy dto.username then
    match findByUsername store (dto.username.getD "") with
    | some findUser => (some findUser, [Lookup.byUsername (dto.username.getD "")])
    | none =>
      if truthy dto.email then
        (acceptVerified (findByEmail store dto.email),
         [Lookup.byUsername (dto.username.getD ""), Lookup.byEmail (dto.email.getD "")])
      else (none, [Lookup.byUsername (dto.username.getD "")])
  else
    if truthy dto.email then
      (acceptVerified (findByEmail store dto.email), [Lookup.byEmail (dto.email.getD "")])
    else (none, [])

/-- AuthenService.validateUser: null when both username and email are
truthy; otherwise resolve the account, compare the password against the
stored hash, and on match sign the destructured rest as a session token.
Returns the token-or-null and the lookups consulted. -/
def validateUser (store : List UserAccount) (dto : AuthenDTO) (now : Nat) :
    Option Token × List Lookup :=
  if truthy dto.username && truthy dto.email then (none, [])
  else
    match lookupUser store dto with
    | (none, log) => (none, log)
    | (some findUser, log) =>
      if bcryptCompareOpt dto.password findUser.password then
        (some (jwtSign (.userPayload (publicOf findUser)) none now), log)
      else (none, log)

/-- AuthenController.login: a null from validateUser becomes the single
BadRequestException message; otherwise the token is returned. -/
def login (store : List UserAccount) (dto : AuthenDTO) (now : Nat) :
    Except String (String × Token) :=
  match (validateUser store dto now).fst with
  | none => .error "Wrong username/email or password"
  | some t => .ok ("Login successfully", t)

/-- The process configuration the service reads (env.mailer.time as an
expiry window, env.dns as the link base). -/
structure Env where
  mailerTime : Nat
  dns : String
deriving DecidableEq, Repr

/-- A message handed to mailService.sendMail: recipient, subject, the link
base built from env.dns and the endpoint path, and the embedded token. -/
structure Mail where
  toAddr : String
  subject : String
  linkBase : String
  token : Token
deriving DecidableEq, Repr

/-- AuthenService.forgotPassword: 400 when no account has the email;
otherwise sign `\x7b email \x7d` with the configured expiry and dispatch a
reset link embedding the token. Returns the status and the dispatched
mails. -/
def forgotPassword (store : List UserAccount) (email : String) (env : Env) (now : Nat) :
    Option Nat × List Mail :=
  match findByEmail store (some email) with
  | none => (some 400, [])
  | some _ =>
    let token := jwtSign (.emailPayload email) (some env.mailerTime) now
    (none,
     [{ toAddr := email, subject := "Reset password",
        linkBase := env.dns ++ "/reset-password?token=", token := token }])

/-- AuthenService.resetPassword: any jwtService.verify throw is caught and
becomes 409; an unresolvable email claim gives 400; otherwise the password
is updated. Returns the status and the store after the call. -/
def resetPassword (store : List UserAccount) (token : Token) (newPassword : String)
    (now : Nat) : Option Nat × List UserAccount :=
  match jwtVerify now token with
  | .error _ => (some 409, store)
  | .ok decoded =>
    match findByEmail store (payloadEmail decoded) with
    | none => (some 400, store)
    | some user => (none, updatePassword store user newPassword)

/-- AuthenService.verifyEmail (requestVerification): 400 when no account
has the email, 409 when it is already verified; otherwise sign
`\x7b email \x7d` with the configured expiry and dispatch a verify link. -/
def verifyEmail (store : List UserAccount) (email : String) (env : Env) (now : Nat) :
    Option Nat × List Mail :=
  match findByEmail store (some email) with
  | none => (some 400, [])
  | some user =>
    if user.verifyEmail then (some 409, [])
    else
      let token := jwtSign (.emailPayload email) (some env.mailerTime) now
      (none,
       [{ toAddr := email, subject := "Verify email",
          linkBase := env.dns ++ "/verify?token=", token := token }])

/-- The result of AuthenService.verify: a numeric status or the success
message object. -/
inductive VerifyResult
  | status (code : Nat)
  | message (msg : String)
deriving DecidableEq, Repr

/-- AuthenService.verify (confirmVerification): a jwtService.verify throw
becomes 400, an unresolvable email claim 409; otherwise the account is
marked verified and the message Verified returned. -/
def verify (store : List UserAccount) (token : Token) (now : Nat) :
    VerifyResult × List UserAccount :=
  match jwtVerify now token with
  | .error _ => (.status 400, store)
  | .ok decoded =>
    match findByEmail store (payloadEmail decoded) with
    | none => (.status 409, store)
    | some user => (.message "Verified", updateVerifyEmail store user)

/-- A concrete unverified account used as sample data. -/
def aliceUnverified : UserAccount :=
  { username := "alice", email := some "a@x.com", password := bcryptHash "Secret1!",
    verifyEmail := false, created_at := 0, updated_at := 0, profile := none }

/-- A concrete verified account used as sample data. -/
def aliceVerified : UserAccount :=
  { aliceUnverified with verifyEmail := true }

/-- A concrete configuration used as sample data. -/
def envSample : Env :=
  { mailerTime := 300, dns := "http://host" }

lemma bcryptHash_ne (p : String) : bcryptHash p ≠ p := by
  intro h
  have hl := congrArg String.length h
  rw [bcryptHash, String.length_append] at hl
  have h7 : ("$2b$12$" : String).length = 7 := rfl
  rw [h7] at hl
  omega

lemma mem_of_findByUsername {store : List UserAccount} {u : String} {a : UserAccount}
    (h : findByUsername store u = some a) : a ∈ store :=
  List.mem_of_find?_eq_some h

lemma mem_of_findByEmail {store : List UserAccount} {e : Option String} {a : UserAccount}
    (h : findByEmail store e = some a) : a ∈ store := by
  cases e with
  | none => simp [findByEmail] at h
  | some s => exact List.mem_of_find?_eq_some h

lemma acceptVerified_eq_some {o : Option UserAccount} {a : UserAccount}
    (h : acceptVerified o = some a) : o = some a ∧ a.verifyEmail = true := by
  cases o with
  | none => simp [acceptVerified] at h
  | some b =>
    by_cases hb : b.verifyEmail = true <;> simp [acceptVerified, hb] at h
    subst h
    exact ⟨rfl, hb⟩

lemma lookupUser_mem {store : List UserAccount} {dto : AuthenDTO} {a : UserAccount}
    {log : List Lookup} (h : lookupUser store dto = (some a, log)) : a ∈ store := by
  unfold lookupUser at h
  split at h
  · split at h
    · next u heq =>
      injection h with h1 h2
      injection h1 with h1
      exact h1 ▸ mem_of_findByUsername heq
    · split at h
      · injection h with h1 h2
        exact mem_of_findByEmail (acceptVerified_eq_some h1).1
      · injection h with h1 h2
        exact absurd h1 (by simp)
  · split at h
    · injection h with h1 h2
      exact mem_of_findByEmail (acceptVerified_eq_some h1).1
    · injection h with h1 h2
      exact absurd h1 (by simp)

lemma find?_map_of_preserve {l : List UserAccount} {p : UserAccount → Bool}
    {f : UserAccount → UserAccount} {u : UserAccount}
    (hf : ∀ a, p (f a) = p a) (h : l.find? p = some u) :
    (l.map f).find? p = some (f u) := by
  rw [List.find?_map]
  have hpf : (p ∘ f) = p := funext hf
  rw [hpf, h]
  rfl

lemma findByEmail_updatePassword {store : List UserAccount} {e : String} {u : UserAccount}
    {np : String} (h : findByEmail store (some e) = some u) :
    findByEmail (updatePassword store u np) (some e)
      = some { u with password := bcryptHash np } := by
  unfold findByEmail updatePassword at *
  have := find?_map_of_preserve (p := fun a => a.email == some e)
    (f := fun a => if a = u then { a with password := bcryptHash np } else a)
    (fun a => by by_cases ha : a = u <;> simp [ha]) h
  simpa using this

lemma findByEmail_updateVerifyEmail {store : List UserAccount} {e : String} {u : UserAccount}
    (h : findByEmail store (some e) = some u) :
    findByEmail (updateVerifyEmail store u) (some e)
      = some { u with verifyEmail := true } := by
  unfold findByEmail updateVerifyEmail at *
  have := find?_map_of_preserve (p := fun a => a.email == some e)
    (f := fun a => if a = u then { a with verifyEmail := true } else a)
    (fun a => by by_cases ha : a = u <;> simp [ha]) h
  simpa using this

lemma truthy_some_ne {s : String} (h : s ≠ "") : truthy (some s) = true := by
  simp [truthy, h]

/-- Claim C10: when neither a username nor an email is supplied, login
fails with the same null outcome as invalid credentials (the single
BadRequestException of the controller), and no store lookup key is
consulted. -/
theorem login_no_identifier (store : List UserAccount) (dto : AuthenDTO) (now : Nat)
    (hu : truthy dto.username = false) (he : truthy dto.email = false) :
    validateUser store dto now = (none, []) ∧
    login store dto now = Except.error "Wrong username/email or password" := by
  have hl : lookupUser store dto = (none, []) := by
    unfold lookupUser
    rw [hu, he]
    simp
  have hv : validateUser store dto now = (none, []) := by
    unfold validateUser
    rw [hu, hl]
    simp
  refine ⟨hv, ?_⟩
  unfold login
  rw [hv]

/-- Witness for login_no_identifier at a concrete store and DTO. -/
theorem login_no_identifier_witness :
    validateUser [aliceVerified] ⟨none, none, some "Secret1!"⟩ 5 = (none, []) ∧
    login [aliceVerified] ⟨none, none, some "Secret1!"⟩ 5
      = Except.error "Wrong username/email or password" :=
  login_no_identifier [aliceVerified] ⟨none, none, some "Secret1!"⟩ 5 (by decide) (by decide)

/-- Claim C2 (amended): when both a username and an email are supplied,
login fails, but with the very same null outcome and controller error as
InvalidCredentials; no distinct AmbiguousIdentifier outcome exists. -/
theorem login_both_keys_same_outcome (store : List UserAccount) (dto : AuthenDTO) (now : Nat)
    (hu : truthy dto.username = true) (he : truthy dto.email = true) :
    validateUser store dto now = (none, []) ∧
    login store dto now = Except.error "Wrong username/email or password" := by
  have hv : validateUser store dto now = (none, []) := by
    unfold validateUser
    rw [hu, he]
    simp
  refine ⟨hv, ?_⟩
  unfold login
  rw [hv]

/-- Witness for login_both_keys_same_outcome at a concrete store and DTO. -/
theorem login_both_keys_same_outcome_witness :
    validateUser [aliceVerified] ⟨some "alice", some "a@x.com", some "Secret1!"⟩ 5 = (none, []) ∧
    login [aliceVerified] ⟨some "alice", some "a@x.com", some "Secret1!"⟩ 5
      = Except.error "Wrong username/email or password" :=
  login_both_keys_same_outcome [aliceVerified] ⟨some "alice", some "a@x.com", some "Secret1!"⟩ 5
    (by decide) (by decide)

/-- Claim C2 counterexample: a login that supplies both keys with fully
correct credentials for a verified account produces exactly the same
outcome, at the service and at the controller, as a plain wrong-password
login, so the caller cannot tell the two apart. -/
theorem login_both_keys_cex :
    login [aliceVerified] ⟨some "alice", some "a@x.com", some "Secret1!"⟩ 5
      = Except.error "Wrong username/email or password" ∧
    login [aliceVerified] ⟨some "alice", none, some "wrongpass"⟩ 5
      = Except.error "Wrong username/email or password" ∧
    (validateUser [aliceVerified] ⟨some "alice", some "a@x.com", some "Secret1!"⟩ 5).fst
      = (validateUser [aliceVerified] ⟨some "alice", none, some "wrongpass"⟩ 5).fst :=
  ⟨rfl, rfl, rfl⟩

/-- Claim C7: any token whose verification throws, whether from a bad
signature or from expiry, makes resetPassword return the single 409
outcome with the store untouched. -/
theorem resetPassword_uniform_rejection (store : List UserAccount) (tok : Token)
    (np : String) (now : Nat) (e : JwtError) (hv : jwtVerify now tok = .error e) :
    resetPassword store tok np now = (some 409, store) := by
  unfold resetPassword
  rw [hv]

/-- Witness for resetPassword_uniform_rejection at both failure kinds: a
forged artifact and an expired token. -/
theorem resetPassword_uniform_rejection_witness :
    resetPassword [aliceUnverified] (Token.garbage "forged") "np" 7
      = (some 409, [aliceUnverified]) ∧
    resetPassword [aliceUnverified] (Token.signed (.emailPayload "a@x.com") 0 (some 300)) "np" 999
      = (some 409, [aliceUnverified]) :=
  ⟨resetPassword_uniform_rejection [aliceUnverified] (Token.garbage "forged") "np" 7
      JwtError.invalidSignature rfl,
   resetPassword_uniform_rejection [aliceUnverified]
      (Token.signed (.emailPayload "a@x.com") 0 (some 300)) "np" 999
      JwtError.expired rfl⟩

/-- Claim C8 (amended): register with an already-taken username fails with
the 409 UsernameTaken outcome for every truthy password; the missing-field
400 check runs first, so an absent or empty password yields 400 instead. -/
theorem register_taken_username_conflict (store : List UserAccount) (dto : AuthenDTO)
    (a : UserAccount) (hu : truthy dto.username = true) (hp : truthy dto.password = true)
    (hf : findByUsername store (dto.username.getD "") = some a) :
    createUser store dto = (some 409, store) := by
  unfold createUser
  rw [hu, hp, hf]
  simp

/-- Witness for register_taken_username_conflict at a concrete store. -/
theorem register_taken_username_conflict_witness :
    createUser [aliceUnverified] ⟨some "alice", none, some "Other2!"⟩
      = (some 409, [aliceUnverified]) :=
  register_taken_username_conflict [aliceUnverified] ⟨some "alice", none, some "Other2!"⟩
    aliceUnverified (by decide) (by decide) (by decide)

/-- Claim C8 counterexample: register with the taken username alice and an
empty password returns the 400 MissingField outcome, not the 409
UsernameTaken outcome the claim requires for every password value. -/
theorem register_taken_username_cex :
    (createUser [aliceUnverified] ⟨some "alice", none, some ""⟩).fst = some 400 ∧
    (createUser [aliceUnverified] ⟨some "alice", none, some ""⟩).fst ≠ some 409 := by
  decide

/-- Claim C1: register with a fresh non-empty username and password
succeeds, and a following username login succeeds with a session token
signed over exactly the created account minus the destructured secret
fields (password hash, verified flag, timestamps, profile). -/
theorem register_then_login (store : List UserAccount) (u p : String) (now : Nat)
    (hu : u ≠ "") (hp : p ≠ "") (hfind : findByUsername store u = none) :
    (createUser store ⟨some u, none, some p⟩).fst = none ∧
    (validateUser (createUser store ⟨some u, none, some p⟩).snd ⟨some u, none, some p⟩ now).fst
      = some (jwtSign (.userPayload (publicOf (create u (bcryptHash p)))) none now) := by
  have hc : createUser store ⟨some u, none, some p⟩
      = (none, save store (create u (bcryptHash p))) := by
    unfold createUser
    rw [truthy_some_ne hu, truthy_some_ne hp]
    simp only [Option.getD_some, Bool.not_true, Bool.or_self, Bool.false_eq_true, if_false]
    rw [hfind]
  have hfu : findByUsername (save store (create u (bcryptHash p))) u
      = some (create u (bcryptHash p)) := by
    unfold findByUsername save
    rw [List.find?_append]
    unfold findByUsername at hfind
    rw [hfind]
    simp [create]
  have hl : lookupUser (save store (create u (bcryptHash p))) ⟨some u, none, some p⟩
      = (some (create u (bcryptHash p)), [Lookup.byUsername u]) := by
    unfold lookupUser
    rw [truthy_some_ne hu]
    simp only [Option.getD_some, if_true]
    rw [hfu]
  rw [hc]
  refine ⟨rfl, ?_⟩
  unfold validateUser
  rw [hl]
  simp [truthy, bcryptCompareOpt, bcryptCompare, create]

/-- Witness for register_then_login on the empty store. -/
theorem register_then_login_witness :
    (createUser [] ⟨some "alice", none, some "Secret1!"⟩).fst = none ∧
    (validateUser (createUser [] ⟨some "alice", none, some "Secret1!"⟩).snd
        ⟨some "alice", none, some "Secret1!"⟩ 5).fst
      = some (jwtSign (.userPayload (publicOf (create "alice" (bcryptHash "Secret1!")))) none 5) :=
  register_then_login [] "alice" "Secret1!" 5 (by decide) (by decide) (by decide)

/-- Claim C4: a resetPassword call whose token verifies and whose email
claim resolves succeeds with no payload, and the store afterwards holds
the one-way hash of the supplied new password for that account, never the
plaintext. -/
theorem resetPassword_persists_hash (store : List UserAccount) (tok : Token)
    (np : String) (now : Nat) (p : JwtPayload) (u : UserAccount)
    (hv : jwtVerify now tok = Except.ok p)
    (hf : findByEmail store (payloadEmail p) = some u) :
    resetPassword store tok np now = (none, updatePassword store u np) ∧
    findByEmail (updatePassword store u np) (payloadEmail p)
      = some { u with password := bcryptHash np } ∧
    bcryptHash np ≠ np := by
  refine ⟨?_, ?_, bcryptHash_ne np⟩
  · unfold resetPassword
    rw [hv]
    dsimp only
    rw [hf]
  · cases hpe : payloadEmail p with
    | none => rw [hpe] at hf; simp [findByEmail] at hf
    | some e =>
      rw [hpe] at hf
      exact findByEmail_updatePassword hf

/-- Witness for resetPassword_persists_hash at a concrete reset token. -/
theorem resetPassword_persists_hash_witness :
    resetPassword [aliceUnverified] (Token.signed (.emailPayload "a@x.com") 7 (some 300)) "NewPw!" 7
      = (none, updatePassword [aliceUnverified] aliceUnverified "NewPw!") ∧
    findByEmail (updatePassword [aliceUnverified] aliceUnverified "NewPw!")
        (payloadEmail (.emailPayload "a@x.com"))
      = some { aliceUnverified with password := bcryptHash "NewPw!" } ∧
    bcryptHash "NewPw!" ≠ "NewPw!" :=
  resetPassword_persists_hash [aliceUnverified]
    (Token.signed (.emailPayload "a@x.com") 7 (some 300)) "NewPw!" 7
    (JwtPayload.emailPayload "a@x.com") aliceUnverified rfl (by decide)

/-- Claim C5: an unverified account with a matching password is treated as
not found for email login (null outcome), while the same account logs in
successfully by username with the same password. -/
theorem unverified_email_vs_username_login (store : List UserAccount) (a : UserAccount)
    (e p : String) (now : Nat)
    (he : e ≠ "") (hu : a.username ≠ "")
    (hfe : findByEmail store (some e) = some a)
    (hnv : a.verifyEmail = false)
    (hfu : findByUsername store a.username = some a)
    (hcmp : bcryptCompare p a.password = true) :
    (validateUser store ⟨none, some e, some p⟩ now).fst = none ∧
    (validateUser store ⟨some a.username, none, some p⟩ now).fst
      = some (jwtSign (.userPayload (publicOf a)) none now) := by
  constructor
  · have hl : lookupUser store ⟨none, some e, some p⟩ = (none, [Lookup.byEmail e]) := by
      simp [lookupUser, truthy, acceptVerified, he, hfe, hnv]
    unfold validateUser
    rw [hl]
    simp [truthy]
  · have hl : lookupUser store ⟨some a.username, none, some p⟩
        = (some a, [Lookup.byUsername a.username]) := by
      unfold lookupUser
      rw [truthy_some_ne hu]
      simp only [Option.getD_some, if_true]
      rw [hfu]
    unfold validateUser
    rw [hl]
    simp [truthy, bcryptCompareOpt, hcmp]

/-- Witness for unverified_email_vs_username_login at a concrete store. -/
theorem unverified_email_vs_username_login_witness :
    (validateUser [aliceUnverified] ⟨none, some "a@x.com", some "Secret1!"⟩ 3).fst = none ∧
    (validateUser [aliceUnverified] ⟨some aliceUnverified.username, none, some "Secret1!"⟩ 3).fst
      = some (jwtSign (.userPayload (publicOf aliceUnverified)) none 3) :=
  unverified_email_vs_username_login [aliceUnverified] aliceUnverified "a@x.com" "Secret1!" 3
    (by decide) (by decide) (by decide) (by decide) (by decide) (by decide)

/-- Claim C6: every token a successful login returns is signed over the
public projection of some stored account, which carries only username and
email — neither the password hash, nor the verified flag, nor the
timestamps. -/
theorem session_token_public_claims (store : List UserAccount) (dto : AuthenDTO)
    (now : Nat) (t : Token) (log : List Lookup)
    (h : validateUser store dto now = (some t, log)) :
    ∃ a, a ∈ store ∧ t = jwtSign (.userPayload (publicOf a)) none now := by
  unfold validateUser at h
  by_cases hb : (truthy dto.username && truthy dto.email) = true
  · rw [if_pos hb] at h
    simp at h
  · rw [if_neg hb] at h
    rcases hr : lookupUser store dto with ⟨f, l⟩
    rw [hr] at h
    cases f with
    | none => simp at h
    | some a =>
      dsimp only at h
      by_cases hc : bcryptCompareOpt dto.password a.password = true
      · rw [if_pos hc] at h
        simp only [Prod.mk.injEq, Option.some.injEq] at h
        exact ⟨a, lookupUser_mem hr, h.1.symm⟩
      · rw [if_neg hc] at h
        simp at h

/-- Witness for session_token_public_claims at a concrete login. -/
theorem session_token_public_claims_witness :
    ∃ a, a ∈ [aliceUnverified]
      ∧ Token.signed (.userPayload ⟨"alice", some "a@x.com"⟩) 5 none
        = jwtSign (.userPayload (publicOf a)) none 5 :=
  session_token_public_claims [aliceUnverified] ⟨some "alice", none, some "Secret1!"⟩ 5
    (Token.signed (.userPayload ⟨"alice", some "a@x.com"⟩) 5 none)
    [Lookup.byUsername "alice"] (by decide)

/-- Claim C9: a token that verifies and resolves lets confirmVerification
succeed, succeed again on the now-verified account with no AlreadyVerified
re-check, while a subsequent requestVerification for that email fails with
the 409 AlreadyVerified outcome. -/
theorem confirmVerification_idempotent (store : List UserAccount) (tok : Token)
    (now : Nat) (env : Env) (p : JwtPayload) (e : String) (u : UserAccount)
    (hv : jwtVerify now tok = Except.ok p)
    (hpe : payloadEmail p = some e)
    (hf : findByEmail store (some e) = some u) :
    verify store tok now = (.message "Verified", updateVerifyEmail store u) ∧
    (verify (updateVerifyEmail store u) tok now).fst = .message "Verified" ∧
    (verifyEmail (updateVerifyEmail store u) e env now).fst = some 409 := by
  have hf2 : findByEmail (updateVerifyEmail store u) (some e)
      = some { u with verifyEmail := true } := findByEmail_updateVerifyEmail hf
  refine ⟨?_, ?_, ?_⟩
  · unfold verify
    rw [hv]
    dsimp only
    rw [hpe, hf]
  · unfold verify
    rw [hv]
    dsimp only
    rw [hpe, hf2]
  · unfold verifyEmail
    rw [hf2]
    dsimp only
    simp

/-- Witness for confirmVerification_idempotent at a concrete token. -/
theorem confirmVerification_idempotent_witness :
    verify [aliceUnverified] (Token.signed (.emailPayload "a@x.com") 7 (some 300)) 7
      = (.message "Verified", updateVerifyEmail [aliceUnverified] aliceUnverified) ∧
    (verify (updateVerifyEmail [aliceUnverified] aliceUnverified)
        (Token.signed (.emailPayload "a@x.com") 7 (some 300)) 7).fst = .message "Verified" ∧
    (verifyEmail (updateVerifyEmail [aliceUnverified] aliceUnverified)
        "a@x.com" envSample 7).fst = some 409 :=
  confirmVerification_idempotent [aliceUnverified]
    (Token.signed (.emailPayload "a@x.com") 7 (some 300)) 7 envSample
    (JwtPayload.emailPayload "a@x.com") "a@x.com" aliceUnverified
    rfl rfl (by decide)

/-- Claim C3 (amended): forgotPassword and requestVerification sign the
same claim shape over the same expiry window, so for one email they issue
the identical token artifact, and resetPassword accepts a token issued by
the verification flow whenever its email claim resolves. -/
theorem token_kinds_interchangeable (store : List UserAccount) (e np : String)
    (env : Env) (now : Nat) (u : UserAccount)
    (hf : findByEmail store (some e) = some u)
    (hnv : u.verifyEmail = false) :
    (forgotPassword store e env now).snd.map Mail.token
      = [jwtSign (.emailPayload e) (some env.mailerTime) now] ∧
    (verifyEmail store e env now).snd.map Mail.token
      = [jwtSign (.emailPayload e) (some env.mailerTime) now] ∧
    (resetPassword store (jwtSign (.emailPayload e) (some env.mailerTime) now) np now).fst
      = none := by
  refine ⟨?_, ?_, ?_⟩
  · unfold forgotPassword
    rw [hf]
    rfl
  · unfold verifyEmail
    rw [hf]
    dsimp only
    rw [hnv]
    simp
  · unfold resetPassword jwtSign jwtVerify
    dsimp only
    have hlt : ¬ (now + env.mailerTime < now) := by omega
    rw [if_neg hlt]
    dsimp only [payloadEmail]
    rw [hf]

/-- Witness for token_kinds_interchangeable at a concrete store. -/
theorem token_kinds_interchangeable_witness :
    (forgotPassword [aliceUnverified] "a@x.com" envSample 7).snd.map Mail.token
      = [jwtSign (.emailPayload "a@x.com") (some envSample.mailerTime) 7] ∧
    (verifyEmail [aliceUnverified] "a@x.com" envSample 7).snd.map Mail.token
      = [jwtSign (.emailPayload "a@x.com") (some envSample.mailerTime) 7] ∧
    (resetPassword [aliceUnverified]
        (jwtSign (.emailPayload "a@x.com") (some envSample.mailerTime) 7) "np" 7).fst = none :=
  token_kinds_interchangeable [aliceUnverified] "a@x.com" "np" envSample 7 aliceUnverified
    (by decide) (by decide)

/-- Claim C3 counterexample: for the email of a concrete unverified
account, the password-reset flow and the email-verification flow dispatch
exactly the same token artifact, and resetPassword consumes the token the
verification flow issued, so the two purposes are interchangeable. -/
theorem token_kinds_cex :
    (verifyEmail [aliceUnverified] "a@x.com" envSample 7).snd.map Mail.token
      = [Token.signed (.emailPayload "a@x.com") 7 (some 300)] ∧
    (forgotPassword [aliceUnverified] "a@x.com" envSample 7).snd.map Mail.token
      = [Token.signed (.emailPayload "a@x.com") 7 (some 300)] ∧
    (resetPassword [aliceUnverified]
        (Token.signed (.emailPayload "a@x.com") 7 (some 300)) "np" 7).fst = none := by
  decide

end Authen
